import Mathlib

/-!
Verification of the DPU debugging backend (UnwindDPU.cpp / DpuRank.cpp).

The development shallowly embeds the three parts of the backend:
  * the stack unwinder `UnwindDPU::DoGetFrameCount` and its helpers,
  * the per-unit execution-control state machine (`Dpu::StopThreadsUnlock`,
    `Dpu::ResumeThreads`, `Dpu::StepThread`, `Dpu::GetThreadState`,
    the raw memory primitives),
  * the rank topology construction (`DpuRank::Open`, `DpuRank::GetDpu`).

Machine integers are modelled as `Nat` with explicit `% 2 ^ 64` / masking where
the C code can overflow or truncate.  Hardware round trips through the vendor
link library (`dpu.h`, external to the repository) are modelled as status-only
transactions: an oracle `HwCmd → Bool` gives each command's success, and each
operation returns the list of commands it issued, in order.  The in-memory
execution context is mutated exactly as the C code mutates it; effects of the
opaque hardware commands on the context buffer are outside this model.
-/

namespace DpuVerify

/-! ## Unwinder embedding (UnwindDPU.cpp)

`DoGetFrameCount` keeps a vector of cursors.  A fresh `Cursor` initializes both
`start_pc` and `cfa` to `LLDB_INVALID_ADDRESS` (all ones); the walk then reads
4 bytes from target memory into the low half of each 64-bit field.  The C loop
is `while (true)` with the sentinel comparison as its only exit; we embed it
with an explicit fuel parameter, so that non-termination of the C loop shows up
as `none` for every fuel value. -/

/-- One reconstructed stack frame, as in `UnwindDPU::Cursor` (the shared
register-context pointer is dropped: every cursor stores the initiating
thread's context, which carries no information for the claims). -/
structure Cursor where
  start_pc : Nat
  cfa : Nat
deriving DecidableEq

/-- `LLDB_INVALID_ADDRESS`: the all-ones 64-bit pattern used by the `Cursor`
constructor to initialize `start_pc` and `cfa`. -/
def LLDB_INVALID_ADDRESS : Nat := 0xffffffffffffffff

/-- The "no caller" sentinel frame address tested by `DoGetFrameCount`. -/
def FRAME_SENTINEL : Nat := 0xffffffff00000db9

/-- 64-bit wraparound subtraction of a small constant, as in C `addr - k`
on `lldb::addr_t` (`k ≤ 2 ^ 64`). -/
def subAddr (a k : Nat) : Nat := (a + (2 ^ 64 - k)) % 2 ^ 64

/-- Overwrite the low 32 bits of a 64-bit field, keeping the high half:
the effect of `ReadMemory(addr, &field, 4, error)` succeeding on a
little-endian host. -/
def writeLow32 (field v : Nat) : Nat := field / 2 ^ 32 * 2 ^ 32 + v % 2 ^ 32

/-- The value held by a cursor field after
`process->ReadMemory(addr, &field, 4, error)`: the field starts as
`LLDB_INVALID_ADDRESS` (fresh `Cursor`), a successful 4-byte read replaces its
low half, and a failed read is swallowed (`error` is never inspected), leaving
the field untouched. -/
def readField (mem : Nat → Option Nat) (addr : Nat) : Nat :=
  match mem addr with
  | some v => writeLow32 LLDB_INVALID_ADDRESS v
  | none => LLDB_INVALID_ADDRESS

/-- The return-address decode applied to the raw word below the frame footer:
`0xffffffff & (0x80000000 | ((start_pc - 1) * 8))` on `uint64_t`. -/
def decodeStartPc (pcField : Nat) : Nat :=
  (0x80000000 ||| ((pcField + (2 ^ 64 - 1)) % 2 ^ 64 * 8 % 2 ^ 64)) &&& 0xffffffff

/-- The cfa value the next loop iteration starts from, given the current one:
the freshly read frame-address field masked to 32 bits by `setFrame`
(`0xffffffff & next_frame->cfa`). -/
def nextCfa (mem : Nat → Option Nat) (c : Nat) : Nat :=
  readField mem (subAddr c 4) &&& 0xffffffff

/-- The body of the `while (true)` loop of `UnwindDPU::DoGetFrameCount`,
with explicit fuel.  Each iteration builds a fresh cursor, reads 4 bytes at
`prev->cfa - 4` into its `cfa` and 4 bytes at `prev->cfa - 8` into its
`start_pc`, breaks if the `cfa` field equals the sentinel, and otherwise
appends the cursor via `setFrame` (which masks `cfa` to 32 bits and decodes
the return address) and continues from it.  `none` means the fuel ran out
with the loop still running. -/
def walkFuel (mem : Nat → Option Nat) : Nat → List Cursor → Nat → Option (List Cursor)
  | 0, _, _ => none
  | fuel + 1, frames, prevCfa =>
    if readField mem (subAddr prevCfa 4) = FRAME_SENTINEL then
      some frames
    else
      walkFuel mem fuel
        (frames ++ [⟨decodeStartPc (readField mem (subAddr prevCfa 8)), nextCfa mem prevCfa⟩])
        (nextCfa mem prevCfa)

/-- `UnwindDPU::DoGetFrameCount` with explicit fuel: frame 0 is built from the
initiating thread's `r22` (frame pointer) and `pc` registers, both narrowed by
`GetAsUInt32()`, then the loop walks the chain.  Returns the cursor vector
(`m_frames`); the C function's result is its length. -/
def DoGetFrameCountFuel (mem : Nat → Option Nat) (r22 pc : Nat) (fuel : Nat) :
    Option (List Cursor) :=
  walkFuel mem fuel [⟨pc &&& 0xffffffff, r22 &&& 0xffffffff⟩] (r22 &&& 0xffffffff)

/-- `UnwindDPU::DoGetFrameInfoAtIndex` with explicit fuel: `none` models the
`false` return (index out of range), and also the case where the walk itself
never finishes within the fuel. -/
def DoGetFrameInfoAtIndexFuel (mem : Nat → Option Nat) (r22 pc : Nat)
    (fuel idx : Nat) : Option (Nat × Nat) :=
  match DoGetFrameCountFuel mem r22 pc fuel with
  | none => none
  | some frames =>
    match frames.get? idx with
    | none => none
    | some c => some (c.cfa, c.start_pc)

/-- Iterated `nextCfa`: the cfa the walk is at after `n` pushed frames. -/
def cfaIter (mem : Nat → Option Nat) (c : Nat) : Nat → Nat
  | 0 => c
  | n + 1 => nextCfa mem (cfaIter mem c n)

/-- The walk's `n`-th sentinel test succeeds: the frame-address field read at
step `n` (4 bytes below the current cfa, over the all-ones initializer)
equals the sentinel. -/
def sentinelHit (mem : Nat → Option Nat) (c : Nat) (n : Nat) : Prop :=
  readField mem (subAddr (cfaIter mem c n) 4) = FRAME_SENTINEL

/-! ### Concrete memory images for the worked examples and counterexamples -/

/-- Worked example 1: the 64-bit sentinel is stored at address 96 (a 4-byte
read at 96 sees its low word); all other reads fail. -/
def memEx1 : Nat → Option Nat :=
  fun a => if a = 96 then some 0xffffffff00000db9 else none

/-- Worked example 2: word 196 holds 150 (next cfa), word 192 holds raw 5,
and the sentinel is stored at 146. -/
def memEx2 : Nat → Option Nat :=
  fun a =>
    if a = 196 then some 150
    else if a = 192 then some 5
    else if a = 146 then some 0xffffffff00000db9
    else none

/-- A memory image on which every read fails. -/
def memNone : Nat → Option Nat := fun _ => none

/-! ### Walk characterization lemmas -/

lemma cfaIter_shift (mem : Nat → Option Nat) (c : Nat) :
    ∀ n, cfaIter mem c (n + 1) = cfaIter mem (nextCfa mem c) n := by
  intro n
  induction n with
  | zero => rfl
  | succ n ih =>
    show nextCfa mem (cfaIter mem c (n + 1)) = nextCfa mem (cfaIter mem (nextCfa mem c) n)
    rw [ih]

lemma sentinelHit_shift (mem : Nat → Option Nat) (c : Nat) (n : Nat) :
    sentinelHit mem c (n + 1) ↔ sentinelHit mem (nextCfa mem c) n := by
  unfold sentinelHit
  rw [cfaIter_shift]

/-- If the fueled walk completes, it completed at the first sentinel hit, and
the frame count grew by exactly the number of non-sentinel steps taken. -/
lemma walkFuel_some_spec (mem : Nat → Option Nat) :
    ∀ fuel frames c fs, walkFuel mem fuel frames c = some fs →
      ∃ n, n < fuel ∧ sentinelHit mem c n ∧ (∀ m, m < n → ¬ sentinelHit mem c m) ∧
        fs.length = frames.length + n := by
  intro fuel
  induction fuel with
  | zero => intro frames c fs h; exact absurd h (by simp [walkFuel])
  | succ fuel ih =>
    intro frames c fs h
    rw [walkFuel] at h
    by_cases h0 : readField mem (subAddr c 4) = FRAME_SENTINEL
    · rw [if_pos h0] at h
      refine ⟨0, Nat.succ_pos _, h0, by omega, ?_⟩
      cases h
      omega
    · rw [if_neg h0] at h
      obtain ⟨n, hlt, hhit, hfirst, hlen⟩ := ih _ _ _ h
      refine ⟨n + 1, by omega, (sentinelHit_shift mem c n).mpr hhit, ?_, ?_⟩
      · intro m hm
        match m with
        | 0 => exact h0
        | m + 1 => exact fun hc => hfirst m (by omega) ((sentinelHit_shift mem c m).mp hc)
      · simp at hlen
        omega

/-- Conversely, a sentinel hit at step `n` makes the walk complete with
fuel `n + 1`. -/
lemma walkFuel_some_of_hit (mem : Nat → Option Nat) :
    ∀ n c frames, sentinelHit mem c n →
      ∃ fs, walkFuel mem (n + 1) frames c = some fs := by
  intro n
  induction n with
  | zero =>
    intro c frames hhit
    have h0 : readField mem (subAddr c 4) = FRAME_SENTINEL := hhit
    exact ⟨frames, by rw [walkFuel, if_pos h0]⟩
  | succ n ih =>
    intro c frames hhit
    by_cases h0 : readField mem (subAddr c 4) = FRAME_SENTINEL
    · exact ⟨frames, by rw [walkFuel, if_pos h0]⟩
    · obtain ⟨fs, hfs⟩ := ih (nextCfa mem c) (frames ++
        [⟨decodeStartPc (readField mem (subAddr c 8)), nextCfa mem c⟩])
        ((sentinelHit_shift mem c n).mp hhit)
      exact ⟨fs, by rw [walkFuel, if_neg h0]; exact hfs⟩

lemma walkFuel_memNone (frames : List Cursor) (c : Nat) :
    ∀ fuel, walkFuel memNone fuel frames c = none := by
  have hread : ∀ a, readField memNone a = LLDB_INVALID_ADDRESS := fun _ => rfl
  intro fuel
  induction fuel generalizing frames c with
  | zero => rfl
  | succ fuel ih =>
    rw [walkFuel, if_neg (by rw [hread]; decide)]
    exact ih _ _

/-! ## Unwinder claims -/

/-- C1 (counterexample): on the memory image where every read fails with the
frame pointer at 100, the walk never completes: for every fuel the loop is
still running.  This refutes both parts of the claim — the walk does not
terminate on every context/memory image, and in particular it does not stop
at the first memory-read failure (the swallowed failure leaves the all-ones
initializer in the frame-address field, which is not the sentinel, so the
loop keeps going). -/
theorem C1_counterexample :
    memNone 96 = none ∧
    ¬ ∃ fuel frames, DoGetFrameCountFuel memNone 100 0 fuel = some frames := by
  refine ⟨rfl, ?_⟩
  rintro ⟨fuel, frames, h⟩
  rw [DoGetFrameCountFuel, walkFuel_memNone] at h
  exact Option.noConfusion h

/-- C1 (amended): the walk stops exactly at the first iteration whose freshly
read frame-address field equals the sentinel `0xFFFFFFFF00000DB9`: it
completes for some fuel iff some iterated read hits the sentinel, and when it
completes the chain length is one (the initiating frame) plus the index of
the first sentinel hit.  A memory-read failure does not stop the walk: the
swallowed failure leaves the field at the all-ones initializer, which never
equals the sentinel. -/
theorem C1_walk_stops_at_first_sentinel (mem : Nat → Option Nat) (r22 pc : Nat) :
    ((∃ fuel frames, DoGetFrameCountFuel mem r22 pc fuel = some frames) ↔
      ∃ n, sentinelHit mem (r22 &&& 0xffffffff) n) ∧
    (∀ fuel frames, DoGetFrameCountFuel mem r22 pc fuel = some frames →
      ∃ n, sentinelHit mem (r22 &&& 0xffffffff) n ∧
        (∀ m, m < n → ¬ sentinelHit mem (r22 &&& 0xffffffff) m) ∧
        frames.length = 1 + n) ∧
    (∀ a, mem a = none → readField mem a ≠ FRAME_SENTINEL) := by
  refine ⟨⟨?_, ?_⟩, ?_, ?_⟩
  · rintro ⟨fuel, frames, h⟩
    obtain ⟨n, _, hhit, _, _⟩ := walkFuel_some_spec mem fuel _ _ frames h
    exact ⟨n, hhit⟩
  · rintro ⟨n, hhit⟩
    obtain ⟨fs, hfs⟩ := walkFuel_some_of_hit mem n (r22 &&& 0xffffffff)
      [⟨pc &&& 0xffffffff, r22 &&& 0xffffffff⟩] hhit
    exact ⟨n + 1, fs, hfs⟩
  · intro fuel frames h
    obtain ⟨n, _, hhit, hfirst, hlen⟩ := walkFuel_some_spec mem fuel _ _ frames h
    exact ⟨n, hhit, hfirst, by simpa using hlen⟩
  · intro a ha
    rw [readField, ha]
    decide

/-- C1 (witness): the amended theorem applied to the all-fail image shows a
failed read at address 0 never matches the sentinel. -/
theorem C1_witness : readField memNone 0 ≠ FRAME_SENTINEL :=
  (C1_walk_stops_at_first_sentinel memNone 100 0).2.2 0 rfl

/-- C4: the two worked unwind examples.  Example 1: with frame 0 at cfa 100
and the sentinel stored at address 96, the walk yields exactly one frame and
`DoGetFrameInfoAtIndex 0` reports `(cfa = 100, start_pc = initiating pc)`.
Example 2: with frame 0 at cfa 200, word 196 = 150, word 192 = 5 and the
sentinel at 146, the walk yields exactly two frames and frame 1's start pc is
`0xffffffff & (0x80000000 | ((5 - 1) * 8)) = 0x80000020`. -/
theorem C4_worked_examples (pc fuel : Nat) :
    DoGetFrameCountFuel memEx1 100 pc (fuel + 1) = some [⟨pc &&& 0xffffffff, 100⟩] ∧
    (DoGetFrameCountFuel memEx1 100 pc (fuel + 1)).map List.length = some 1 ∧
    DoGetFrameInfoAtIndexFuel memEx1 100 pc (fuel + 1) 0 = some (100, pc &&& 0xffffffff) ∧
    DoGetFrameCountFuel memEx2 200 pc (fuel + 2) =
      some [⟨pc &&& 0xffffffff, 200⟩, ⟨0x80000020, 150⟩] ∧
    (DoGetFrameCountFuel memEx2 200 pc (fuel + 2)).map List.length = some 2 ∧
    DoGetFrameInfoAtIndexFuel memEx2 200 pc (fuel + 2) 1 = some (150, 0x80000020) := by
  exact ⟨rfl, rfl, rfl, rfl, rfl, rfl⟩

/-- C10: the sentinel comparison only ever tests the low 32 bits read from
memory.  The freshly initialized frame-address field keeps `0xffffffff` as
its high half whether or not the 4-byte read succeeds, so the comparison with
`0xFFFFFFFF00000DB9` succeeds iff the read succeeded and the 32-bit word it
returned is `0x00000DB9`; a failed read (field untouched, all ones) never
matches. -/
theorem C10_sentinel_low_word (mem : Nat → Option Nat) (a : Nat) :
    readField mem a / 2 ^ 32 = 0xffffffff ∧
    (readField mem a = FRAME_SENTINEL ↔ ∃ v, mem a = some v ∧ v % 2 ^ 32 = 0xdb9) ∧
    (mem a = none → readField mem a ≠ FRAME_SENTINEL) := by
  rcases h : mem a with _ | v
  · refine ⟨by rw [readField, h]; decide, ?_, fun _ => by rw [readField, h]; decide⟩
    rw [readField, h]
    simp only [FRAME_SENTINEL, LLDB_INVALID_ADDRESS]
    constructor
    · intro hc; exact absurd hc (by decide)
    · rintro ⟨v, hv, _⟩; exact Option.noConfusion hv
  · have hv : v % 2 ^ 32 < 2 ^ 32 := Nat.mod_lt _ (by norm_num)
    simp only [readField, h, writeLow32]
    refine ⟨?_, ?_, fun hc => Option.noConfusion hc⟩
    · simp only [LLDB_INVALID_ADDRESS]
      norm_num
      omega
    · simp only [FRAME_SENTINEL, LLDB_INVALID_ADDRESS, Option.some_inj]
      constructor
      · intro hc
        exact ⟨v, rfl, by norm_num at hc ⊢; omega⟩
      · rintro ⟨w, rfl, hw⟩
        norm_num at hw ⊢
        omega

/-- C10 (witness): at the example-1 image, the word stored at 96 has low half
`0xDB9`, so the sentinel test succeeds there, and it fails at the failing
address 0. -/
theorem C10_witness :
    readField memEx1 96 = FRAME_SENTINEL ∧ readField memEx1 0 ≠ FRAME_SENTINEL :=
  ⟨(C10_sentinel_low_word memEx1 96).2.1.mpr ⟨0xffffffff00000db9, rfl, by norm_num⟩,
   (C10_sentinel_low_word memEx1 0).2.2 rfl⟩

/-! ## Unit-controller execution-state machine (DpuRank.cpp)

The execution context `_dpu_context_t` is embedded field by field; per-thread
arrays become functions from thread index.  The vendor link library is
external: each `dpu_*` round trip is one `HwCmd`, its success given by an
oracle `HwCmd → Bool`, and every operation returns the ordered list of
commands it issued (its hardware trace).  Each public method acquires the
rank mutex for its whole body, so a trace is exactly the set of transactions
performed under one lock acquisition. -/

/-- `lldb::StateType`, restricted to the constructors this file produces. -/
inductive StateType
  | eStateInvalid
  | eStateStopped
  | eStateRunning
  | eStateCrashed
  | eStateExited
deriving DecidableEq

/-- `lldb::StopReason`, restricted to the constructors this file produces. -/
inductive StopReason
  | eStopReasonNone
  | eStopReasonBreakpoint
  | eStopReasonException
  | eStopReasonTrace
deriving DecidableEq

/-- One hardware round trip through the vendor link library. -/
inductive HwCmd
  | initFaultProcess
  | extractContext
  | restoreContext
  | finalizeFaultProcess
  | executeThreadStepInFault (thread : Nat)
  | copyToWram (offset len : Nat)
  | copyFromWram (offset len : Nat)
  | copyToIram (offset len : Nat)
  | copyFromIram (offset len : Nat)
  | copyToMram (offset len : Nat)
  | copyFromMram (offset len : Nat)
deriving DecidableEq

/-- The register slot holding the exit status (`lldb_private::r0_dpu`; the
numeric value comes from the register-metadata table outside this file and is
immaterial to the claims). -/
def r0_dpu : Nat := 0

/-- The per-unit execution-context buffer `struct _dpu_context_t`. -/
structure DpuContext where
  registers : Nat → Nat
  pcs : Nat → Nat
  zero_flags : Nat → Bool
  carry_flags : Nat → Bool
  scheduling : Nat → Nat
  nr_of_running_threads : Nat
  bkp_fault : Bool
  bkp_fault_thread_index : Nat
  dma_fault : Bool
  dma_fault_thread_index : Nat
  mem_fault : Bool
  mem_fault_thread_index : Nat

/-- The mutable per-unit state of a `Dpu` object that the control operations
touch: the context buffer, the dirty bit and the logical running flag. -/
structure DpuState where
  ctx : DpuContext
  registers_has_been_modified : Bool
  dpu_is_running : Bool

/-- Result of `Dpu::StopThreadsUnlock` / `Dpu::StopThreads`. -/
structure StopResult where
  success : Bool
  dpu : DpuState
  trace : List HwCmd

/-- Result of `Dpu::ResumeThreads`. -/
structure ResumeResult where
  success : Bool
  dpu : DpuState
  trace : List HwCmd

/-- Result of `Dpu::StepThread` (the `exit_status` out-parameter is `some`
exactly when the source writes it). -/
structure StepResult where
  state : StateType
  dpu : DpuState
  trace : List HwCmd
  exit_status : Option Nat

/-- `Dpu::GetThreadState`: pure decode of the sticky fault flags.  The result
is `(description, stop_reason, state)`; `description = none` models the
branches that leave the out-parameter untouched. -/
def GetThreadState (ctx : DpuContext) (thread_index : Nat) (stepping : Bool) :
    Option String × StopReason × StateType :=
  if ctx.bkp_fault ∧ ctx.bkp_fault_thread_index = thread_index then
    (none, StopReason.eStopReasonBreakpoint, StateType.eStateStopped)
  else if ctx.dma_fault ∧ ctx.dma_fault_thread_index = thread_index then
    (some "dma fault", StopReason.eStopReasonException, StateType.eStateCrashed)
  else if ctx.mem_fault ∧ ctx.mem_fault_thread_index = thread_index then
    (some "memory fault", StopReason.eStopReasonException, StateType.eStateCrashed)
  else if ctx.scheduling thread_index ≠ 0xff ∧ stepping then
    (some "stepping", StopReason.eStopReasonTrace, StateType.eStateStopped)
  else if ctx.pcs thread_index ≠ 0 ∧ stepping then
    (some "stopped", StopReason.eStopReasonTrace, StateType.eStateStopped)
  else
    (none, StopReason.eStopReasonNone, StateType.eStateStopped)

/-- `IsContextReadyForResumeOrStep`: clears the breakpoint-fault flag in the
context (a mutation of its argument) and reports whether no DMA or memory
fault is pending. -/
def IsContextReadyForResumeOrStep (ctx : DpuContext) : Bool × DpuContext :=
  (!(ctx.dma_fault || ctx.mem_fault), { ctx with bkp_fault := false })

/-- `Dpu::StopThreadsUnlock`: no-op success when not running and not forced;
otherwise clears the running flag, marks every thread unscheduled (`0xFF`),
zeroes the running count and all three fault flags, then issues the
initialize-fault-process and extract-context round trips (both are issued;
success requires both to succeed). -/
def StopThreadsUnlock (hw : HwCmd → Bool) (nr_threads : Nat) (s : DpuState)
    (force : Bool) : StopResult :=
  if !s.dpu_is_running && !force then ⟨true, s, []⟩
  else
    let ctx' : DpuContext :=
      { s.ctx with
        scheduling := fun t => if t < nr_threads then 0xff else s.ctx.scheduling t
        nr_of_running_threads := 0
        bkp_fault := false
        dma_fault := false
        mem_fault := false }
    ⟨hw HwCmd.initFaultProcess && hw HwCmd.extractContext,
     { s with ctx := ctx', dpu_is_running := false },
     [HwCmd.initFaultProcess, HwCmd.extractContext]⟩

/-- `Dpu::StopThreads`: the locking wrapper, calling `StopThreadsUnlock` with
`force` defaulted to `false`. -/
def StopThreads (hw : HwCmd → Bool) (nr_threads : Nat) (s : DpuState) : StopResult :=
  StopThreadsUnlock hw nr_threads s false

/-- `Dpu::ResumeThreads`: fault pre-check (which clears the breakpoint flag),
then — only if no DMA/memory fault — pushes the dirty register context (if
any) and issues the finalize-fault-process round trip; both commands are
issued unconditionally in sequence and success requires every issued command
to succeed.  With polling allowed, marks the unit logically running. -/
def ResumeThreads (hw : HwCmd → Bool) (s : DpuState) (allowed_polling : Bool) :
    ResumeResult :=
  let (ready, ctx') := IsContextReadyForResumeOrStep s.ctx
  let s1 : DpuState := { s with ctx := ctx' }
  if !ready then ⟨false, s1, []⟩
  else
    let ok1 := if s1.registers_has_been_modified then hw HwCmd.restoreContext else true
    let s2 : DpuState := { s1 with registers_has_been_modified := false }
    let tr1 : List HwCmd :=
      if s1.registers_has_been_modified then [HwCmd.restoreContext] else []
    let ok2 := hw HwCmd.finalizeFaultProcess
    let s3 : DpuState := if allowed_polling then { s2 with dpu_is_running := true } else s2
    ⟨ok1 && ok2, s3, tr1 ++ [HwCmd.finalizeFaultProcess]⟩

/-- `Dpu::StepThread`: fault pre-check (which clears the breakpoint flag);
`Crashed` on a pending DMA/memory fault; `Stopped` with no hardware
transaction when the requested thread is not in the scheduling list;
otherwise pushes the dirty register context (if any), issues the
single-thread fault-step and the context re-extraction, and reports
`Crashed` on any command failure, `Exited` (with exit status from the
reserved register slot) when the running count is zero, else `Stopped`. -/
def StepThread (hw : HwCmd → Bool) (s : DpuState) (thread_index : Nat) : StepResult :=
  let (ready, ctx') := IsContextReadyForResumeOrStep s.ctx
  let s1 : DpuState := { s with ctx := ctx' }
  if !ready then ⟨StateType.eStateCrashed, s1, [], none⟩
  else if ctx'.scheduling thread_index = 0xff then
    ⟨StateType.eStateStopped, s1, [], none⟩
  else
    let ok1 := if s1.registers_has_been_modified then hw HwCmd.restoreContext else true
    let s2 : DpuState := { s1 with registers_has_been_modified := false }
    let tr1 : List HwCmd :=
      if s1.registers_has_been_modified then [HwCmd.restoreContext] else []
    let ok2 := hw (HwCmd.executeThreadStepInFault thread_index)
    let ok3 := hw HwCmd.extractContext
    let tr := tr1 ++ [HwCmd.executeThreadStepInFault thread_index, HwCmd.extractContext]
    if !(ok1 && ok2 && ok3) then ⟨StateType.eStateCrashed, s2, tr, none⟩
    else if s2.ctx.nr_of_running_threads = 0 then
      ⟨StateType.eStateExited, s2, tr, some (s2.ctx.registers r0_dpu)⟩
    else ⟨StateType.eStateStopped, s2, tr, none⟩

/-! ### Raw memory primitives

`dpuword_t` is the 32-bit work-memory word and `dpuinstruction_t` the 64-bit
instruction word (the breakpoint opcode is a 64-bit instruction); MRAM is
byte-granular, so its word size is one byte.  Each primitive performs exactly
one link transaction under the rank lock, converting byte offset and size by
truncating integer division (`offset / sizeof(word)`, `size / sizeof(word)`);
the MRAM pair passes bytes through, i.e. divides by 1. -/

/-- `sizeof(dpuword_t)`: the 32-bit WRAM word. -/
def dpuword_size : Nat := 4

/-- `sizeof(dpuinstruction_t)`: the 64-bit IRAM instruction word. -/
def dpuinstruction_size : Nat := 8

/-- MRAM transfer granularity: `uint8_t`, one byte. -/
def mram_byte_size : Nat := 1

/-- `Dpu::WriteWRAM`. -/
def WriteWRAM (hw : HwCmd → Bool) (offset size : Nat) : Bool × List HwCmd :=
  (hw (HwCmd.copyToWram (offset / dpuword_size) (size / dpuword_size)),
   [HwCmd.copyToWram (offset / dpuword_size) (size / dpuword_size)])

/-- `Dpu::ReadWRAM`. -/
def ReadWRAM (hw : HwCmd → Bool) (offset size : Nat) : Bool × List HwCmd :=
  (hw (HwCmd.copyFromWram (offset / dpuword_size) (size / dpuword_size)),
   [HwCmd.copyFromWram (offset / dpuword_size) (size / dpuword_size)])

/-- `Dpu::WriteIRAM`. -/
def WriteIRAM (hw : HwCmd → Bool) (offset size : Nat) : Bool × List HwCmd :=
  (hw (HwCmd.copyToIram (offset / dpuinstruction_size) (size / dpuinstruction_size)),
   [HwCmd.copyToIram (offset / dpuinstruction_size) (size / dpuinstruction_size)])

/-- `Dpu::ReadIRAM`. -/
def ReadIRAM (hw : HwCmd → Bool) (offset size : Nat) : Bool × List HwCmd :=
  (hw (HwCmd.copyFromIram (offset / dpuinstruction_size) (size / dpuinstruction_size)),
   [HwCmd.copyFromIram (offset / dpuinstruction_size) (size / dpuinstruction_size)])

/-- `Dpu::WriteMRAM` (byte offset and size passed through unchanged). -/
def WriteMRAM (hw : HwCmd → Bool) (offset size : Nat) : Bool × List HwCmd :=
  (hw (HwCmd.copyToMram offset size), [HwCmd.copyToMram offset size])

/-- `Dpu::ReadMRAM` (byte offset and size passed through unchanged). -/
def ReadMRAM (hw : HwCmd → Bool) (offset size : Nat) : Bool × List HwCmd :=
  (hw (HwCmd.copyFromMram offset size), [HwCmd.copyFromMram offset size])

/-! ## Rank topology (DpuRank::Open / DpuRank::GetDpu) -/

/-- The topology part of the link's target description. -/
structure Topology where
  nr_of_control_interfaces : Nat
  nr_of_dpus_per_control_interface : Nat

/-- The identity of one constructed unit controller: the (slice, member)
coordinate `DpuRank::Open` passes to each `Dpu`. -/
structure DpuUnit where
  slice_id : Nat
  dpu_id : Nat
deriving DecidableEq

/-- The construction loop of a successful `DpuRank::Open`: `total_units =
interfaces * units_per_interface` controllers, the one with linear index `id`
given slice `id / units_per_interface` and member `id % units_per_interface`. -/
def OpenUnits (topo : Topology) : List DpuUnit :=
  (List.range (topo.nr_of_control_interfaces * topo.nr_of_dpus_per_control_interface)).map
    fun id => ⟨id / topo.nr_of_dpus_per_control_interface,
               id % topo.nr_of_dpus_per_control_interface⟩

/-- `DpuRank::GetDpu`: bounds-checked lookup by linear index. -/
def GetDpu (dpus : List DpuUnit) (index : Nat) : Option DpuUnit :=
  if index < dpus.length then dpus.get? index else none

/-! ### Concrete fixtures -/

/-- A hardware oracle on which every round trip succeeds. -/
def hwAllOk : HwCmd → Bool := fun _ => true

/-- A context with no faults, no scheduled threads, zero register file. -/
def ctxIdle : DpuContext :=
  { registers := fun _ => 0
    pcs := fun _ => 0
    zero_flags := fun _ => false
    carry_flags := fun _ => false
    scheduling := fun _ => 0xff
    nr_of_running_threads := 0
    bkp_fault := false
    bkp_fault_thread_index := 0
    dma_fault := false
    dma_fault_thread_index := 0
    mem_fault := false
    mem_fault_thread_index := 0 }

/-- A halted unit state over `ctxIdle`. -/
def sIdle : DpuState :=
  { ctx := ctxIdle, registers_has_been_modified := false, dpu_is_running := false }

/-- A halted unit whose context carries only a pending breakpoint fault, with
every thread unscheduled. -/
def sBkpOnly : DpuState :=
  { ctx := { ctxIdle with bkp_fault := true }
    registers_has_been_modified := false
    dpu_is_running := false }

/-- A halted unit whose scheduling bytes are all 0 (not the 0xFF sentinel). -/
def sHaltedBadSched : DpuState :=
  { ctx := { ctxIdle with scheduling := fun _ => 0 }
    registers_has_been_modified := false
    dpu_is_running := false }

/-- A state carrying an unresolved DMA fault together with a breakpoint
fault. -/
def sDmaAndBkp : DpuState :=
  { ctx := { ctxIdle with bkp_fault := true, dma_fault := true }
    registers_has_been_modified := false
    dpu_is_running := false }

/-- A context with both a breakpoint fault and a DMA fault flagged for
thread 0. -/
def ctxBothFaults : DpuContext :=
  { ctxIdle with bkp_fault := true, dma_fault := true }

/-! ### Shared state-machine lemmas -/

/-- Whatever path `ResumeThreads` takes, the context it leaves behind is the
input context with the breakpoint flag cleared by the pre-check. -/
lemma ResumeThreads_ctx (hw : HwCmd → Bool) (s : DpuState) (pol : Bool) :
    (ResumeThreads hw s pol).dpu.ctx = { s.ctx with bkp_fault := false } := by
  rw [ResumeThreads]
  dsimp only [IsContextReadyForResumeOrStep]
  split
  · rfl
  · split <;> split <;> rfl

/-- Whatever path `StepThread` takes, the context it leaves behind is the
input context with the breakpoint flag cleared by the pre-check. -/
lemma StepThread_ctx (hw : HwCmd → Bool) (s : DpuState) (t : Nat) :
    (StepThread hw s t).dpu.ctx = { s.ctx with bkp_fault := false } := by
  rw [StepThread]
  dsimp only [IsContextReadyForResumeOrStep]
  split
  · rfl
  · split
    · rfl
    · split <;> split <;> (try split) <;> rfl

/-- On a pending DMA or memory fault, `ResumeThreads` rejects up front. -/
lemma ResumeThreads_fault (hw : HwCmd → Bool) (s : DpuState) (pol : Bool)
    (h : s.ctx.dma_fault = true ∨ s.ctx.mem_fault = true) :
    ResumeThreads hw s pol =
      ⟨false, { s with ctx := { s.ctx with bkp_fault := false } }, []⟩ := by
  rcases h with h | h <;>
    simp [ResumeThreads, IsContextReadyForResumeOrStep, h]

/-- On a pending DMA or memory fault, `StepThread` rejects up front. -/
lemma StepThread_fault (hw : HwCmd → Bool) (s : DpuState) (t : Nat)
    (h : s.ctx.dma_fault = true ∨ s.ctx.mem_fault = true) :
    StepThread hw s t =
      ⟨StateType.eStateCrashed, { s with ctx := { s.ctx with bkp_fault := false } },
       [], none⟩ := by
  rcases h with h | h <;>
    simp [StepThread, IsContextReadyForResumeOrStep, h]

/-- With no DMA/memory fault, `ResumeThreads` issues the restore (when dirty)
and finalize round trips, succeeding iff every issued command succeeds. -/
lemma ResumeThreads_noFault (hw : HwCmd → Bool) (s : DpuState) (pol : Bool)
    (hd : s.ctx.dma_fault = false) (hm : s.ctx.mem_fault = false) :
    (ResumeThreads hw s pol).success =
      ((if s.registers_has_been_modified then hw HwCmd.restoreContext else true) &&
        hw HwCmd.finalizeFaultProcess) ∧
    (ResumeThreads hw s pol).trace =
      (if s.registers_has_been_modified then [HwCmd.restoreContext] else []) ++
        [HwCmd.finalizeFaultProcess] := by
  simp [ResumeThreads, IsContextReadyForResumeOrStep, hd, hm]

/-- With no DMA/memory fault and the requested thread scheduled, `StepThread`
issues the restore (when dirty), fault-step and extract round trips, and
crashes exactly when some issued command fails. -/
lemma StepThread_noFault_scheduled (hw : HwCmd → Bool) (s : DpuState) (t : Nat)
    (hd : s.ctx.dma_fault = false) (hm : s.ctx.mem_fault = false)
    (hsched : s.ctx.scheduling t ≠ 0xff) :
    (StepThread hw s t).trace =
      (if s.registers_has_been_modified then [HwCmd.restoreContext] else []) ++
        [HwCmd.executeThreadStepInFault t, HwCmd.extractContext] ∧
    (StepThread hw s t).state =
      (if !((if s.registers_has_been_modified then hw HwCmd.restoreContext else true) &&
            hw (HwCmd.executeThreadStepInFault t) && hw HwCmd.extractContext) then
        StateType.eStateCrashed
      else if s.ctx.nr_of_running_threads = 0 then StateType.eStateExited
      else StateType.eStateStopped) := by
  have hready : IsContextReadyForResumeOrStep s.ctx =
      (true, { s.ctx with bkp_fault := false }) := by
    rw [IsContextReadyForResumeOrStep]
    simp only [Prod.mk.injEq]
    exact ⟨by rw [hd, hm]; rfl, trivial⟩
  rw [StepThread, hready]
  dsimp only
  rw [if_neg (by decide : ¬((!true) = true)), if_neg hsched]
  constructor
  · rw [apply_ite StepResult.trace, apply_ite StepResult.trace]
    dsimp only
    rw [ite_self, ite_self]
  · rw [apply_ite StepResult.state, apply_ite StepResult.state]

/-- With no DMA/memory fault and the requested thread unscheduled,
`StepThread` is a pure no-op apart from the cleared breakpoint flag. -/
lemma StepThread_unscheduled (hw : HwCmd → Bool) (s : DpuState) (t : Nat)
    (hd : s.ctx.dma_fault = false) (hm : s.ctx.mem_fault = false)
    (hsched : s.ctx.scheduling t = 0xff) :
    StepThread hw s t =
      ⟨StateType.eStateStopped, { s with ctx := { s.ctx with bkp_fault := false } },
       [], none⟩ := by
  simp [StepThread, IsContextReadyForResumeOrStep, hd, hm, hsched]

/-! ## State-machine claims -/

/-- C2: `GetThreadState` is a pure decode of the sticky fault flags with the
exact precedence breakpoint > DMA > memory > (stepping ∧ scheduled) Trace >
(stepping ∧ pc ≠ 0) Trace > plain Stopped; in particular a breakpoint fault
on the thread wins over any simultaneously flagged DMA/memory fault. -/
theorem C2_thread_state_precedence (ctx : DpuContext) (t : Nat) (stepping : Bool) :
    (ctx.bkp_fault = true → ctx.bkp_fault_thread_index = t →
      GetThreadState ctx t stepping =
        (none, StopReason.eStopReasonBreakpoint, StateType.eStateStopped)) ∧
    (¬(ctx.bkp_fault = true ∧ ctx.bkp_fault_thread_index = t) →
      ctx.dma_fault = true → ctx.dma_fault_thread_index = t →
      GetThreadState ctx t stepping =
        (some "dma fault", StopReason.eStopReasonException, StateType.eStateCrashed)) ∧
    (¬(ctx.bkp_fault = true ∧ ctx.bkp_fault_thread_index = t) →
      ¬(ctx.dma_fault = true ∧ ctx.dma_fault_thread_index = t) →
      ctx.mem_fault = true → ctx.mem_fault_thread_index = t →
      GetThreadState ctx t stepping =
        (some "memory fault", StopReason.eStopReasonException, StateType.eStateCrashed)) ∧
    (¬(ctx.bkp_fault = true ∧ ctx.bkp_fault_thread_index = t) →
      ¬(ctx.dma_fault = true ∧ ctx.dma_fault_thread_index = t) →
      ¬(ctx.mem_fault = true ∧ ctx.mem_fault_thread_index = t) →
      stepping = true → ctx.scheduling t ≠ 0xff →
      GetThreadState ctx t stepping =
        (some "stepping", StopReason.eStopReasonTrace, StateType.eStateStopped)) ∧
    (¬(ctx.bkp_fault = true ∧ ctx.bkp_fault_thread_index = t) →
      ¬(ctx.dma_fault = true ∧ ctx.dma_fault_thread_index = t) →
      ¬(ctx.mem_fault = true ∧ ctx.mem_fault_thread_index = t) →
      stepping = true → ctx.scheduling t = 0xff → ctx.pcs t ≠ 0 →
      GetThreadState ctx t stepping =
        (some "stopped", StopReason.eStopReasonTrace, StateType.eStateStopped)) ∧
    (¬(ctx.bkp_fault = true ∧ ctx.bkp_fault_thread_index = t) →
      ¬(ctx.dma_fault = true ∧ ctx.dma_fault_thread_index = t) →
      ¬(ctx.mem_fault = true ∧ ctx.mem_fault_thread_index = t) →
      (stepping = false ∨ (ctx.scheduling t = 0xff ∧ ctx.pcs t = 0)) →
      GetThreadState ctx t stepping =
        (none, StopReason.eStopReasonNone, StateType.eStateStopped)) := by
  refine ⟨?_, ?_, ?_, ?_, ?_, ?_⟩
  · intro h1 h2
    simp [GetThreadState, h1, h2]
  · intro hb h1 h2
    simp [GetThreadState, hb, h1, h2]
  · intro hb hd h1 h2
    simp [GetThreadState, hb, hd, h1, h2]
  · intro hb hd hm hstep hsched
    simp [GetThreadState, hb, hd, hm, hstep, hsched]
  · intro hb hd hm hstep hsched hpc
    simp [GetThreadState, hb, hd, hm, hstep, hsched, hpc]
  · intro hb hd hm hrest
    rcases hrest with h | ⟨h1, h2⟩
    · simp [GetThreadState, hb, hd, hm, h]
    · simp [GetThreadState, hb, hd, hm, h1, h2]

/-- C2 (witness): with both the breakpoint and the DMA fault flagged for
thread 0, the decode reports Breakpoint/Stopped, never the DMA result. -/
theorem C2_witness :
    GetThreadState ctxBothFaults 0 false =
      (none, StopReason.eStopReasonBreakpoint, StateType.eStateStopped) :=
  (C2_thread_state_precedence ctxBothFaults 0 false).1 rfl rfl

/-- C3 (counterexample): with only a breakpoint fault pending but the
requested thread unscheduled (scheduling byte `0xFF`), `StepThread` issues no
hardware command at all and returns Stopped — refuting the claim that a
breakpoint-only context always makes resume/step "proceed to issue the
hardware commands". -/
theorem C3_counterexample :
    sBkpOnly.ctx.bkp_fault = true ∧ sBkpOnly.ctx.dma_fault = false ∧
    sBkpOnly.ctx.mem_fault = false ∧ sBkpOnly.ctx.scheduling 0 = 0xff ∧
    (StepThread hwAllOk sBkpOnly 0).trace = [] ∧
    (StepThread hwAllOk sBkpOnly 0).state = StateType.eStateStopped :=
  ⟨rfl, rfl, rfl, rfl, rfl, rfl⟩

/-- C3 (amended): `ResumeThreads` fails and `StepThread` reports Crashed,
both without issuing any hardware transaction, whenever the context carries
an unresolved DMA or memory fault.  When only a breakpoint fault is pending,
both clear the breakpoint flag; `ResumeThreads` issues the hardware commands
and succeeds iff every issued transaction succeeds; `StepThread` does the
same provided the requested thread is currently scheduled, and on an
unscheduled thread it returns Stopped without any hardware transaction. -/
theorem C3_fault_gate (hw : HwCmd → Bool) (s : DpuState) (pol : Bool) (t : Nat) :
    (s.ctx.dma_fault = true ∨ s.ctx.mem_fault = true →
      (ResumeThreads hw s pol).success = false ∧ (ResumeThreads hw s pol).trace = [] ∧
      (StepThread hw s t).state = StateType.eStateCrashed ∧
      (StepThread hw s t).trace = []) ∧
    (s.ctx.dma_fault = false → s.ctx.mem_fault = false → s.ctx.bkp_fault = true →
      (ResumeThreads hw s pol).dpu.ctx.bkp_fault = false ∧
      (ResumeThreads hw s pol).trace =
        (if s.registers_has_been_modified then [HwCmd.restoreContext] else []) ++
          [HwCmd.finalizeFaultProcess] ∧
      (ResumeThreads hw s pol).success =
        ((if s.registers_has_been_modified then hw HwCmd.restoreContext else true) &&
          hw HwCmd.finalizeFaultProcess)) ∧
    (s.ctx.dma_fault = false → s.ctx.mem_fault = false → s.ctx.bkp_fault = true →
      s.ctx.scheduling t ≠ 0xff →
      (StepThread hw s t).dpu.ctx.bkp_fault = false ∧
      (StepThread hw s t).trace =
        (if s.registers_has_been_modified then [HwCmd.restoreContext] else []) ++
          [HwCmd.executeThreadStepInFault t, HwCmd.extractContext] ∧
      (((if s.registers_has_been_modified then hw HwCmd.restoreContext else true) &&
          hw (HwCmd.executeThreadStepInFault t) && hw HwCmd.extractContext) = true →
        (StepThread hw s t).state ≠ StateType.eStateCrashed)) ∧
    (s.ctx.dma_fault = false → s.ctx.mem_fault = false → s.ctx.bkp_fault = true →
      s.ctx.scheduling t = 0xff →
      (StepThread hw s t).state = StateType.eStateStopped ∧
      (StepThread hw s t).trace = [] ∧
      (StepThread hw s t).dpu.ctx.bkp_fault = false) := by
  refine ⟨?_, ?_, ?_, ?_⟩
  · intro h
    rw [ResumeThreads_fault hw s pol h, StepThread_fault hw s t h]
    exact ⟨rfl, rfl, rfl, rfl⟩
  · intro hd hm _
    obtain ⟨hsucc, htr⟩ := ResumeThreads_noFault hw s pol hd hm
    exact ⟨by rw [ResumeThreads_ctx], htr, hsucc⟩
  · intro hd hm _ hsched
    obtain ⟨htr, hstate⟩ := StepThread_noFault_scheduled hw s t hd hm hsched
    refine ⟨by rw [StepThread_ctx], htr, ?_⟩
    intro hok
    rw [hstate, hok]
    by_cases hn : s.ctx.nr_of_running_threads = 0 <;> simp [hn]
  · intro hd hm _ hsched
    rw [StepThread_unscheduled hw s t hd hm hsched]
    exact ⟨rfl, rfl, rfl⟩

/-- C3 (witness): a DMA-faulted state is rejected by both operations with an
empty hardware trace. -/
theorem C3_witness :
    (ResumeThreads hwAllOk sDmaAndBkp true).success = false ∧
    (ResumeThreads hwAllOk sDmaAndBkp true).trace = [] ∧
    (StepThread hwAllOk sDmaAndBkp 0).state = StateType.eStateCrashed ∧
    (StepThread hwAllOk sDmaAndBkp 0).trace = [] :=
  (C3_fault_gate hwAllOk sDmaAndBkp true 0).1 (Or.inl rfl)

/-- C5: each of the six raw memory primitives performs exactly one locked
link transaction, with byte offset and byte size converted to its memory's
word granularity by truncating integer division — WRAM by the 4-byte
`dpuword_t`, IRAM by the 8-byte `dpuinstruction_t`, MRAM by its 1-byte
granularity (division by one: bytes pass through unchanged). -/
theorem C5_memory_primitives (hw : HwCmd → Bool) (offset size : Nat) :
    WriteWRAM hw offset size =
      (hw (HwCmd.copyToWram (offset / dpuword_size) (size / dpuword_size)),
       [HwCmd.copyToWram (offset / dpuword_size) (size / dpuword_size)]) ∧
    ReadWRAM hw offset size =
      (hw (HwCmd.copyFromWram (offset / dpuword_size) (size / dpuword_size)),
       [HwCmd.copyFromWram (offset / dpuword_size) (size / dpuword_size)]) ∧
    WriteIRAM hw offset size =
      (hw (HwCmd.copyToIram (offset / dpuinstruction_size) (size / dpuinstruction_size)),
       [HwCmd.copyToIram (offset / dpuinstruction_size) (size / dpuinstruction_size)]) ∧
    ReadIRAM hw offset size =
      (hw (HwCmd.copyFromIram (offset / dpuinstruction_size) (size / dpuinstruction_size)),
       [HwCmd.copyFromIram (offset / dpuinstruction_size) (size / dpuinstruction_size)]) ∧
    WriteMRAM hw offset size =
      (hw (HwCmd.copyToMram (offset / mram_byte_size) (size / mram_byte_size)),
       [HwCmd.copyToMram (offset / mram_byte_size) (size / mram_byte_size)]) ∧
    ReadMRAM hw offset size =
      (hw (HwCmd.copyFromMram (offset / mram_byte_size) (size / mram_byte_size)),
       [HwCmd.copyFromMram (offset / mram_byte_size) (size / mram_byte_size)]) ∧
    (WriteWRAM hw offset size).2.length = 1 ∧ (ReadWRAM hw offset size).2.length = 1 ∧
    (WriteIRAM hw offset size).2.length = 1 ∧ (ReadIRAM hw offset size).2.length = 1 ∧
    (WriteMRAM hw offset size).2.length = 1 ∧ (ReadMRAM hw offset size).2.length = 1 := by
  refine ⟨rfl, rfl, rfl, rfl, ?_, ?_, rfl, rfl, rfl, rfl, rfl, rfl⟩ <;>
    simp [WriteMRAM, ReadMRAM, mram_byte_size, Nat.div_one]

/-- C6: a successful `Open` on a topology of `I` control interfaces with `P`
units each constructs exactly `I * P` unit controllers; the one with linear
index `i` has slice coordinate `i / P` and member coordinate `i % P`, the
(slice, member) pairs are pairwise distinct, and `GetDpu i` returns the
controller constructed at linear order `i` for `i` in range and none
otherwise. -/
theorem C6_open_topology (topo : Topology) :
    (OpenUnits topo).length =
      topo.nr_of_control_interfaces * topo.nr_of_dpus_per_control_interface ∧
    (∀ i, i < topo.nr_of_control_interfaces * topo.nr_of_dpus_per_control_interface →
      (OpenUnits topo).get? i =
        some ⟨i / topo.nr_of_dpus_per_control_interface,
              i % topo.nr_of_dpus_per_control_interface⟩) ∧
    (∀ i j, i < topo.nr_of_control_interfaces * topo.nr_of_dpus_per_control_interface →
      j < topo.nr_of_control_interfaces * topo.nr_of_dpus_per_control_interface →
      (OpenUnits topo).get? i = (OpenUnits topo).get? j → i = j) ∧
    (∀ i, i < topo.nr_of_control_interfaces * topo.nr_of_dpus_per_control_interface →
      GetDpu (OpenUnits topo) i = (OpenUnits topo).get? i) ∧
    (∀ i, ¬ i < topo.nr_of_control_interfaces * topo.nr_of_dpus_per_control_interface →
      GetDpu (OpenUnits topo) i = none) := by
  have hlen : (OpenUnits topo).length =
      topo.nr_of_control_interfaces * topo.nr_of_dpus_per_control_interface := by
    simp [OpenUnits]
  have hget : ∀ i,
      i < topo.nr_of_control_interfaces * topo.nr_of_dpus_per_control_interface →
      (OpenUnits topo).get? i =
        some ⟨i / topo.nr_of_dpus_per_control_interface,
              i % topo.nr_of_dpus_per_control_interface⟩ := by
    intro i hi
    rw [OpenUnits, List.get?_map, List.get?_range hi]
    rfl
  refine ⟨hlen, hget, ?_, ?_, ?_⟩
  · intro i j hi hj hij
    rw [hget i hi, hget j hj] at hij
    simp only [Option.some_inj, DpuUnit.mk.injEq] at hij
    obtain ⟨hdiv, hmod⟩ := hij
    have h : topo.nr_of_dpus_per_control_interface * (i / topo.nr_of_dpus_per_control_interface)
        + i % topo.nr_of_dpus_per_control_interface =
        topo.nr_of_dpus_per_control_interface * (j / topo.nr_of_dpus_per_control_interface)
        + j % topo.nr_of_dpus_per_control_interface := by rw [hdiv, hmod]
    rwa [Nat.div_add_mod, Nat.div_add_mod] at h
  · intro i hi
    rw [GetDpu, if_pos (by rwa [hlen])]
  · intro i hi
    rw [GetDpu, if_neg (by rwa [hlen])]

/-- C6 (witness): on a 2-interface, 3-units-per-interface topology, the unit
at linear index 4 carries coordinate (1, 1), and lookup at 6 is out of
range. -/
theorem C6_witness :
    (OpenUnits ⟨2, 3⟩).get? 4 = some ⟨1, 1⟩ ∧ GetDpu (OpenUnits ⟨2, 3⟩) 6 = none :=
  ⟨(C6_open_topology ⟨2, 3⟩).2.1 4 (by norm_num),
   (C6_open_topology ⟨2, 3⟩).2.2.2.2 6 (by norm_num)⟩

/-- C7 (counterexample): a `StopThreads` call on an already-halted unit (not
forced) takes the no-op path and returns success without touching the
context, so a scheduling byte that was not `0xFF` before the call is still
not `0xFF` after it — refuting the claim that the postcondition holds after
every call including the no-op path. -/
theorem C7_counterexample :
    (StopThreads hwAllOk 24 sHaltedBadSched).success = true ∧
    (StopThreads hwAllOk 24 sHaltedBadSched).trace = [] ∧
    (StopThreads hwAllOk 24 sHaltedBadSched).dpu.ctx.scheduling 0 = 0 ∧
    (StopThreads hwAllOk 24 sHaltedBadSched).dpu.ctx.scheduling 0 ≠ 0xff :=
  ⟨rfl, rfl, rfl, by decide⟩

/-- C7 (amended): whenever `StopThreadsUnlock` executes the full stop
sequence — i.e. the unit is running or the call is forced — it leaves every
thread's scheduling byte at `0xFF`, the running count at 0 and all three
fault flags clear, and issues the initialize-fault-process and
extract-context round trips; on the no-op path (already halted, not forced)
it returns success with the state untouched and no hardware transaction, so
the postcondition holds then only if it already held before the call. -/
theorem C7_stop_threads_postcondition (hw : HwCmd → Bool) (nr_threads : Nat)
    (s : DpuState) (force : Bool) :
    (s.dpu_is_running = true ∨ force = true →
      (∀ t, t < nr_threads →
        (StopThreadsUnlock hw nr_threads s force).dpu.ctx.scheduling t = 0xff) ∧
      (StopThreadsUnlock hw nr_threads s force).dpu.ctx.nr_of_running_threads = 0 ∧
      (StopThreadsUnlock hw nr_threads s force).dpu.ctx.bkp_fault = false ∧
      (StopThreadsUnlock hw nr_threads s force).dpu.ctx.dma_fault = false ∧
      (StopThreadsUnlock hw nr_threads s force).dpu.ctx.mem_fault = false ∧
      (StopThreadsUnlock hw nr_threads s force).dpu.dpu_is_running = false ∧
      (StopThreadsUnlock hw nr_threads s force).trace =
        [HwCmd.initFaultProcess, HwCmd.extractContext]) ∧
    (s.dpu_is_running = false → force = false →
      StopThreadsUnlock hw nr_threads s force = ⟨true, s, []⟩) := by
  constructor
  · intro h
    have hcond : ¬((!s.dpu_is_running && !force) = true) := by
      rcases h with h | h <;> simp [h]
    rw [StopThreadsUnlock, if_neg hcond]
    refine ⟨?_, rfl, rfl, rfl, rfl, rfl, rfl⟩
    intro t ht
    simp [ht]
  · intro h1 h2
    rw [StopThreadsUnlock, if_pos (by simp [h1, h2])]

/-- C7 (witness): stopping a running unit establishes the postcondition for
every thread of a 24-thread unit. -/
theorem C7_witness :
    (∀ t, t < 24 →
      (StopThreadsUnlock hwAllOk 24 { sIdle with dpu_is_running := true } false).dpu.ctx.scheduling t = 0xff) ∧
    (StopThreadsUnlock hwAllOk 24 { sIdle with dpu_is_running := true } false).dpu.ctx.nr_of_running_threads = 0 :=
  ⟨((C7_stop_threads_postcondition hwAllOk 24 { sIdle with dpu_is_running := true } false).1
      (Or.inl rfl)).1,
   ((C7_stop_threads_postcondition hwAllOk 24 { sIdle with dpu_is_running := true } false).1
      (Or.inl rfl)).2.1⟩

/-- C8: with no unresolved DMA/memory fault, `StepThread` on a thread whose
scheduling byte is `0xFF` returns Stopped and performs zero hardware
transactions: the entire result is the input state (with only the in-memory
breakpoint flag cleared by the pre-check) and an empty trace. -/
theorem C8_step_unscheduled_noop (hw : HwCmd → Bool) (s : DpuState) (t : Nat)
    (hd : s.ctx.dma_fault = false) (hm : s.ctx.mem_fault = false)
    (hsched : s.ctx.scheduling t = 0xff) :
    StepThread hw s t =
      ⟨StateType.eStateStopped, { s with ctx := { s.ctx with bkp_fault := false } },
       [], none⟩ :=
  StepThread_unscheduled hw s t hd hm hsched

/-- C8 (witness): stepping thread 0 of the idle unit (all scheduling bytes
`0xFF`) is a hardware no-op reporting Stopped. -/
theorem C8_witness :
    StepThread hwAllOk sIdle 0 =
      ⟨StateType.eStateStopped, { sIdle with ctx := { sIdle.ctx with bkp_fault := false } },
       [], none⟩ :=
  C8_step_unscheduled_noop hwAllOk sIdle 0 rfl rfl rfl

/-- C9: every call to `ResumeThreads` or `StepThread` leaves the context's
breakpoint-fault flag cleared — the fault pre-check mutates the context
before deciding — so a call rejected for a pending DMA or memory fault still
loses the breakpoint flag, while the DMA/memory flags are preserved on that
error path: the rejected operation is not atomic. -/
theorem C9_precheck_not_atomic (hw : HwCmd → Bool) (s : DpuState) (pol : Bool) (t : Nat) :
    (ResumeThreads hw s pol).dpu.ctx.bkp_fault = false ∧
    (StepThread hw s t).dpu.ctx.bkp_fault = false ∧
    (s.ctx.dma_fault = true ∨ s.ctx.mem_fault = true →
      (ResumeThreads hw s pol).success = false ∧
      (ResumeThreads hw s pol).dpu.ctx.dma_fault = s.ctx.dma_fault ∧
      (ResumeThreads hw s pol).dpu.ctx.mem_fault = s.ctx.mem_fault ∧
      (StepThread hw s t).state = StateType.eStateCrashed ∧
      (StepThread hw s t).dpu.ctx.dma_fault = s.ctx.dma_fault ∧
      (StepThread hw s t).dpu.ctx.mem_fault = s.ctx.mem_fault) := by
  refine ⟨by rw [ResumeThreads_ctx], by rw [StepThread_ctx], ?_⟩
  intro h
  rw [ResumeThreads_fault hw s pol h, StepThread_fault hw s t h]
  exact ⟨rfl, rfl, rfl, rfl, rfl, rfl⟩

/-- C9 (witness): on the DMA-and-breakpoint state, the rejected resume has
lost the breakpoint flag while keeping the DMA flag. -/
theorem C9_witness :
    (ResumeThreads hwAllOk sDmaAndBkp false).dpu.ctx.bkp_fault = false ∧
    (ResumeThreads hwAllOk sDmaAndBkp false).dpu.ctx.dma_fault = sDmaAndBkp.ctx.dma_fault :=
  ⟨(C9_precheck_not_atomic hwAllOk sDmaAndBkp false 0).1,
   ((C9_precheck_not_atomic hwAllOk sDmaAndBkp false 0).2.2 (Or.inl rfl)).2.1⟩

end DpuVerify
